import Mathlib

/-!
# Verification of the mc-printer core

A shallow embedding of the palette resolver / color matcher, the image
sampler, the mesh rasterizer front end and the serpentine build scheduler
of the mc-printer repository, together with theorems settling the frozen
claims about them.

Conventions used throughout:
* JavaScript numbers are modelled as `ℤ` or `ℚ` where the source only ever
  holds integral or rational values, and as `ℝ` where genuinely continuous
  quantities (euclidean distances, interpolation parameters) arise.
* JavaScript `undefined` (out-of-range array reads, failed parses) is
  modelled with `Option`.
* Host-library string primitives (`split`, `toUpperCase`) are re-implemented
  structurally so that concrete instances evaluate inside the kernel.
-/

namespace MCPrinter

/-- JavaScript `String.prototype.split(sep)` for a one-character separator,
as structural recursion on the character list: every occurrence of `sep`
starts a new field, so `"a+b".split('+') = ["a","b"]`,
`"a+".split('+') = ["a",""]` and `"".split('+') = [""]`. -/
def splitChar (sep : Char) : List Char → List (List Char)
  | [] => [[]]
  | c :: rest =>
      let r := splitChar sep rest
      if c = sep then [] :: r
      else
        match r with
        | h :: t => (c :: h) :: t
        | [] => [[c]]

/-- JS `s.split(sep)` lifted to `String`. -/
def jsSplit (sep : Char) (s : String) : List String :=
  (splitChar sep s.data).map String.mk

/-- JS `s.toUpperCase()` (ASCII fragment, which is all the source compares). -/
def jsToUpper (s : String) : String := String.mk (s.data.map Char.toUpper)

/-- A color triple `(r, g, b)`; palette colors and pixel samples are 8-bit
integers in the source. -/
abbrev RGB := ℤ × ℤ × ℤ

/-- A palette entry: `{block, average, dominant}` as loaded from
`palettes.json` (mc-colors.js reads `swatch.block` and indexes the two color
triples by the `settings.color` flag). -/
structure Swatch where
  block : String
  average : RGB
  dominant : RGB
deriving DecidableEq, Repr

/-- The ambient state a `bot` carries for color matching: the palette table
loaded from `palettes.json`, the two settings flags read at call time
(`settings.mode`, `settings.color`), and the two distance metrics.
The metric implementations live in `colour-distances.js` and
`antimatter-color.js`, which are not part of the sources under
verification; they enter the matcher only through the comparisons
`colorDistanceRGB`/`colorDistanceLAB` make, so they are carried here as
function-valued fields. -/
structure ColorEnv where
  palettes : String → Option (List Swatch)
  settingsMode : String
  settingsColor : String
  dRGB : RGB → RGB → ℚ
  dLAB : RGB → RGB → ℚ

/-- Source expression `best[settings.color]` — the configured color channel of a swatch.
The settings surface only offers `"average"` and `"dominant"`. -/
def swatchChannel (env : ColorEnv) (s : Swatch) : RGB :=
  if env.settingsColor = "dominant" then s.dominant else s.average

/-- mc-colors.js `parsePaletteString`: split the key on `'+'` and append the
swatch list of every name that is present in the palette table; names that
are absent contribute nothing (the `if (palettes[paletteName])` guard). -/
def parsePaletteString (env : ColorEnv) (paletteString : String) : List Swatch :=
  (jsSplit '+' paletteString).foldl
    (fun palette paletteName =>
      match env.palettes paletteName with
      | some sws => palette ++ sws
      | none => palette)
    []

/-- The metric `getBlockFromColor` uses on a given call: the LAB branch is
taken when `mode.toUpperCase() === 'LAB' || settings.mode === 'LAB'`. -/
def selectedMetric (env : ColorEnv) (mode : String) : RGB → RGB → ℚ :=
  if jsToUpper mode = "LAB" ∨ env.settingsMode = "LAB" then env.dLAB else env.dRGB

/-- The linear nearest-neighbor scan of `getBlockFromColor`: the running
best starts at `palette[0]` and, for each later swatch,
`best = disA < disB ? best : swatch` — the running best is kept only when
its distance is strictly smaller than the new swatch's. -/
def nearestSwatch (d : RGB → RGB → ℚ) (c : RGB) (ch : Swatch → RGB)
    (best : Swatch) (rest : List Swatch) : Swatch :=
  rest.foldl (fun best swatch => if d c (ch best) < d c (ch swatch) then best else swatch) best

/-- mc-colors.js `getBlockFromColor`, after its palette argument has been
resolved to a swatch list (the source accepts a string or an array and
routes strings through `parsePaletteString` first; see
`getBlockFromColor`). Empty palettes and `alpha === 0` return the
transparent sentinel `'air'`. -/
def getBlockFromColorList (env : ColorEnv) (r g b alpha : ℤ)
    (palette : List Swatch) (mode : String) : String :=
  match palette with
  | [] => "air"
  | best :: rest =>
      if alpha = 0 then "air"
      else (nearestSwatch (selectedMetric env mode) (r, g, b) (swatchChannel env) best rest).block

/-- mc-colors.js `getBlockFromColor` called with a palette key string
(`typeof palette === 'string'` branch): the key is resolved by
`parsePaletteString`, then matched. -/
def getBlockFromColor (env : ColorEnv) (r g b alpha : ℤ)
    (palette : String) (mode : String) : String :=
  getBlockFromColorList env r g b alpha (parsePaletteString env palette) mode

/-- Modelled from the spec: the RGB metric is implemented by
`colour-distances.js`, which is not among the sources under verification.
Spec §4.1 describes it as "a perceptually-weighted Euclidean distance over
the three channels" whose "channel weights approximate human luminance
sensitivity"; we use the standard luminance weights 299/587/114 and omit
the final square root, which changes no comparison the matcher makes
(squaring is strictly monotone on nonnegative distances). -/
def rgbWeightedSq (a b : RGB) : ℚ :=
  ((299 * (a.1 - b.1) ^ 2 + 587 * (a.2.1 - b.2.1) ^ 2 + 114 * (a.2.2 - b.2.2) ^ 2 : ℤ) : ℚ)

/-- A concrete matcher environment used by the concrete instances below:
one known palette `"concrete"`, RGB mode, averaged channel, spec-modelled
RGB metric (the LAB field is irrelevant in RGB mode). -/
def demoEnv : ColorEnv where
  palettes := fun n =>
    if n = "concrete" then some [⟨"white_concrete", (240, 240, 240), (236, 236, 236)⟩] else none
  settingsMode := "rgb"
  settingsColor := "average"
  dRGB := rgbWeightedSq
  dLAB := fun _ _ => 0

/-- Two swatches whose configured (average) colors coincide, so their
computed distances from any sample agree under any metric. -/
def tiePalette : List Swatch :=
  [⟨"white_wool", (255, 255, 255), (255, 255, 255)⟩,
   ⟨"snow_block", (255, 255, 255), (250, 250, 250)⟩]

/-! ## Scan lemmas (shared helpers) -/

theorem nearestSwatch_mem (d : RGB → RGB → ℚ) (c : RGB) (ch : Swatch → RGB)
    (best : Swatch) (rest : List Swatch) :
    nearestSwatch d c ch best rest ∈ best :: rest := by
  induction rest generalizing best with
  | nil => simp [nearestSwatch]
  | cons sw rest ih =>
      simp only [nearestSwatch, List.foldl_cons]
      by_cases hlt : d c (ch best) < d c (ch sw)
      · rw [if_pos hlt]
        have h := ih best
        simp only [nearestSwatch] at h
        rcases List.mem_cons.1 h with h | h
        · simp [h]
        · simp [List.mem_cons, h]
      · rw [if_neg hlt]
        have h := ih sw
        simp only [nearestSwatch] at h
        rcases List.mem_cons.1 h with h | h
        · simp [h]
        · simp [List.mem_cons, h]

theorem nearestSwatch_min (d : RGB → RGB → ℚ) (c : RGB) (ch : Swatch → RGB)
    (best : Swatch) (rest : List Swatch) :
    ∀ t ∈ best :: rest, d c (ch (nearestSwatch d c ch best rest)) ≤ d c (ch t) := by
  induction rest generalizing best with
  | nil => simp [nearestSwatch]
  | cons sw rest ih =>
      intro t ht
      have step : nearestSwatch d c ch best (sw :: rest)
          = nearestSwatch d c ch (if d c (ch best) < d c (ch sw) then best else sw) rest := by
        simp [nearestSwatch]
      set b' := if d c (ch best) < d c (ch sw) then best else sw with hb'
      have hbest : d c (ch (nearestSwatch d c ch b' rest)) ≤ d c (ch best) := by
        have h := ih b' b' (by simp)
        by_cases hlt : d c (ch best) < d c (ch sw)
        · simpa [hb', hlt] using h
        · exact le_trans (by simpa [hb', hlt] using h) (le_of_not_lt hlt)
      have hsw : d c (ch (nearestSwatch d c ch b' rest)) ≤ d c (ch sw) := by
        have h := ih b' b' (by simp)
        by_cases hlt : d c (ch best) < d c (ch sw)
        · exact le_trans (by simpa [hb', hlt] using h) (le_of_lt hlt)
        · simpa [hb', hlt] using h
      rcases List.mem_cons.1 ht with rfl | ht
      · rw [step]; exact hbest
      rcases List.mem_cons.1 ht with rfl | ht
      · rw [step]; exact hsw
      · rw [step]; exact ih b' t (List.mem_cons_of_mem _ ht)

/-! ## Claim C1 — tie-breaking of the nearest-neighbor scan -/

/-- C1, counterexample. For two swatches at equal computed distance from
the sample (their configured colors coincide), `getBlockFromColor` returns
the **higher**-indexed swatch, not the lower-indexed one the claim states:
the scan keeps the running best only on strictly smaller distance and
replaces it on ties (`best = disA < disB ? best : swatch`). -/
theorem c1_counterexample :
    getBlockFromColorList demoEnv 10 20 30 255 tiePalette "rgb" = "snow_block" ∧
      tiePalette.map Swatch.block = ["white_wool", "snow_block"] ∧
      "snow_block" ≠ "white_wool" := by
  refine ⟨?_, by decide, by decide⟩
  simp [getBlockFromColorList, tiePalette, nearestSwatch, selectedMetric, demoEnv, jsToUpper,
    swatchChannel]

/-- C1, amended. The scan replaces the running best whenever the new
swatch's distance is less than **or equal to** the current best's, so it
returns a swatch of minimal computed distance, and for two swatches at
equal computed distance it returns the higher-indexed one (under either
metric and either color channel). -/
theorem c1_amended (env : ColorEnv) (r g b alpha : ℤ) (mode : String)
    (best : Swatch) (rest : List Swatch) (h : alpha ≠ 0) :
    (∃ s, s ∈ best :: rest ∧
        getBlockFromColorList env r g b alpha (best :: rest) mode = s.block ∧
        ∀ t ∈ best :: rest,
          selectedMetric env mode (r, g, b) (swatchChannel env s)
            ≤ selectedMetric env mode (r, g, b) (swatchChannel env t)) ∧
      ∀ s1 s2 : Swatch,
        selectedMetric env mode (r, g, b) (swatchChannel env s1)
            = selectedMetric env mode (r, g, b) (swatchChannel env s2) →
          getBlockFromColorList env r g b alpha [s1, s2] mode = s2.block := by
  constructor
  · refine ⟨nearestSwatch (selectedMetric env mode) (r, g, b) (swatchChannel env) best rest,
      nearestSwatch_mem _ _ _ _ _, ?_, nearestSwatch_min _ _ _ _ _⟩
    simp [getBlockFromColorList, h]
  · intro s1 s2 heq
    simp [getBlockFromColorList, nearestSwatch, h, heq]

/-- C1, witness for the amended theorem at a concrete input. -/
theorem c1_witness :
    (255 : ℤ) ≠ 0 ∧
      ((∃ s, s ∈ Swatch.mk "white_wool" (255, 255, 255) (255, 255, 255) ::
            [Swatch.mk "snow_block" (255, 255, 255) (250, 250, 250)] ∧
          getBlockFromColorList demoEnv 10 20 30 255
              (Swatch.mk "white_wool" (255, 255, 255) (255, 255, 255) ::
                [Swatch.mk "snow_block" (255, 255, 255) (250, 250, 250)]) "rgb" = s.block ∧
          ∀ t ∈ Swatch.mk "white_wool" (255, 255, 255) (255, 255, 255) ::
              [Swatch.mk "snow_block" (255, 255, 255) (250, 250, 250)],
            selectedMetric demoEnv "rgb" (10, 20, 30) (swatchChannel demoEnv s)
              ≤ selectedMetric demoEnv "rgb" (10, 20, 30) (swatchChannel demoEnv t)) ∧
        ∀ s1 s2 : Swatch,
          selectedMetric demoEnv "rgb" (10, 20, 30) (swatchChannel demoEnv s1)
              = selectedMetric demoEnv "rgb" (10, 20, 30) (swatchChannel demoEnv s2) →
            getBlockFromColorList demoEnv 10 20 30 255 [s1, s2] "rgb" = s2.block) :=
  ⟨by decide,
    c1_amended demoEnv 10 20 30 255 "rgb"
      (Swatch.mk "white_wool" (255, 255, 255) (255, 255, 255))
      [Swatch.mk "snow_block" (255, 255, 255) (250, 250, 250)] (by decide)⟩

/-! ## Claim C2 — unknown palette names -/

/-- C2, counterexample. Resolving `"concrete+doesnotexist"` does not fail:
the unknown name is silently dropped by `parsePaletteString`'s
`if (palettes[paletteName])` guard, the resolved sequence is nonempty, and
`getBlockFromColor` performs the scan and returns a material. -/
theorem c2_counterexample :
    parsePaletteString demoEnv "concrete+doesnotexist"
        = [⟨"white_concrete", (240, 240, 240), (236, 236, 236)⟩] ∧
      getBlockFromColor demoEnv 10 20 30 255 "concrete+doesnotexist" "rgb"
        = "white_concrete" := by
  constructor
  · decide
  · simp [getBlockFromColor, getBlockFromColorList]
    decide

/-- C2, amended. `parsePaletteString` never fails on unknown names: it
resolves a key to the concatenation of the swatch lists of the key's
*known* names only, and when every name of the key is unknown the resolved
sequence is empty and `getBlockFromColor` returns the transparent sentinel
`'air'` instead of raising an `UnknownPalette` error. -/
theorem c2_amended (env : ColorEnv) (s : String) :
    parsePaletteString env s
        = ((jsSplit '+' s).filter fun n => (env.palettes n).isSome).foldl
            (fun acc n => acc ++ ((env.palettes n).getD [])) [] ∧
      ((∀ n ∈ jsSplit '+' s, env.palettes n = none) →
        ∀ r g b alpha mode, getBlockFromColor env r g b alpha s mode = "air") := by
  have key : ∀ (l : List String) (acc : List Swatch),
      l.foldl (fun palette paletteName =>
          match env.palettes paletteName with
          | some sws => palette ++ sws
          | none => palette) acc
        = (l.filter fun n => (env.palettes n).isSome).foldl
            (fun acc n => acc ++ ((env.palettes n).getD [])) acc := by
    intro l
    induction l with
    | nil => intro acc; rfl
    | cons n l ih =>
        intro acc
        cases hn : env.palettes n with
        | none => simp [List.filter_cons, hn, ih]
        | some sws => simp [List.filter_cons, hn, ih]
  constructor
  · exact key _ _
  · intro hall r g b alpha mode
    have hfilter : ((jsSplit '+' s).filter fun n => (env.palettes n).isSome) = [] := by
      refine List.filter_eq_nil_iff.2 fun n hn => ?_
      simp [hall n hn]
    have hempty : parsePaletteString env s = [] := by
      rw [parsePaletteString, key, hfilter]
      rfl
    rw [getBlockFromColor, hempty]
    rfl

/-- C2, witness for the amended theorem at a concrete key whose every name
is unknown. -/
theorem c2_witness :
    parsePaletteString demoEnv "doesnotexist+alsomissing"
        = ((jsSplit '+' "doesnotexist+alsomissing").filter
              fun n => (demoEnv.palettes n).isSome).foldl
            (fun acc n => acc ++ ((demoEnv.palettes n).getD [])) [] ∧
      ((∀ n ∈ jsSplit '+' "doesnotexist+alsomissing", demoEnv.palettes n = none) →
        ∀ r g b alpha mode,
          getBlockFromColor demoEnv r g b alpha "doesnotexist+alsomissing" mode = "air") :=
  c2_amended demoEnv "doesnotexist+alsomissing"

/-! ## Claim C9 — palette combination is ordered concatenation -/

/-- C9. Resolving a two-name key `"a+b"` whose names are both defined
yields exactly palette `a`'s swatches followed by palette `b`'s swatches,
in order and with no deduplication (the source palettes, being values of
the immutable environment, are untouched). -/
theorem c9_concat (env : ColorEnv) (s a b : String) (la lb : List Swatch)
    (hsplit : jsSplit '+' s = [a, b])
    (ha : env.palettes a = some la) (hb : env.palettes b = some lb) :
    parsePaletteString env s = la ++ lb := by
  rw [parsePaletteString, hsplit]
  simp [ha, hb]

/-- A two-palette environment for the C9 witness; the palettes share the
swatch `gray_wool`, so the combined sequence exhibits the duplicate. -/
def c9Env : ColorEnv where
  palettes := fun n =>
    if n = "alpha" then
      some [⟨"white_wool", (233, 236, 236), (234, 237, 237)⟩,
            ⟨"gray_wool", (62, 68, 71), (60, 66, 70)⟩]
    else if n = "beta" then
      some [⟨"gray_wool", (62, 68, 71), (60, 66, 70)⟩]
    else none
  settingsMode := "rgb"
  settingsColor := "average"
  dRGB := rgbWeightedSq
  dLAB := fun _ _ => 0

/-- C9, witness: the concrete key `"alpha+beta"`, with the shared swatch
appearing twice in the result (no deduplication). -/
theorem c9_witness :
    jsSplit '+' "alpha+beta" = ["alpha", "beta"] ∧
      c9Env.palettes "alpha"
        = some [⟨"white_wool", (233, 236, 236), (234, 237, 237)⟩,
                ⟨"gray_wool", (62, 68, 71), (60, 66, 70)⟩] ∧
      c9Env.palettes "beta" = some [⟨"gray_wool", (62, 68, 71), (60, 66, 70)⟩] ∧
      parsePaletteString c9Env "alpha+beta"
        = [⟨"white_wool", (233, 236, 236), (234, 237, 237)⟩,
           ⟨"gray_wool", (62, 68, 71), (60, 66, 70)⟩]
          ++ [⟨"gray_wool", (62, 68, 71), (60, 66, 70)⟩] :=
  ⟨by decide, by decide, by decide,
    c9_concat c9Env "alpha+beta" "alpha" "beta" _ _ (by decide) (by decide) (by decide)⟩

/-! ## Image sampler (index.js `getBlock`, static branch) — Claim C6 -/

/-- A decoded raster as `get-pixels` returns it for a still image: shape
`[width, height, channels]` over a flat buffer with the default row-major
strides `[height * channels, channels, 1]`. -/
structure Image3 where
  width : ℕ
  height : ℕ
  channels : ℕ
  data : List ℕ
deriving Repr, DecidableEq

/-- Source read `image.get(x, y, c)`: ndarray does not bounds-check the indices — it
reads the buffer at the raw row-major offset, and a read outside the
buffer yields JS `undefined` (`none` here). This is why reading channel 3
of a 3-channel image lands on the next pixel's red value. -/
def imageGet (i : Image3) (x y c : ℤ) : Option ℕ :=
  let off := x * ((i.height : ℤ) * i.channels) + y * i.channels + c
  if off < 0 then none else i.data.get? off.toNat

/-- The sampling half of index.js `getBlock` (static branch): pixel index
`⌊width·x⌋, ⌊height·z⌋`, channel reads `r, g, b`, and
`alpha = image.get(px, pz, 3) ?? image.get(px, pz, 2)` — the `??`
fallback is the **blue** channel, not 255. The sample is then handed to
`bot.colors.getBlock` (`getBlockFromColor` above). -/
def getBlockSample (i : Image3) (x z : ℚ) :
    Option ℕ × Option ℕ × Option ℕ × Option ℕ :=
  let px := ⌊(i.width : ℚ) * x⌋
  let pz := ⌊(i.height : ℚ) * z⌋
  (imageGet i px pz 0, imageGet i px pz 1, imageGet i px pz 2,
    (imageGet i px pz 3).or (imageGet i px pz 2))

/-- A 2×1 three-channel image (no alpha channel): pixels
`(10,20,30)` and `(40,50,60)`. -/
def c6Image : Image3 := ⟨2, 1, 3, [10, 20, 30, 40, 50, 60]⟩

/-- C6, failing input. Sampling the first pixel of a 3-channel (no-alpha)
static image does **not** produce `alpha = 255`: the static branch's
fallback chain `image.get(px,pz,3) ?? image.get(px,pz,2)` reads the raw
buffer one slot past the pixel — the next pixel's red value (40 here) —
instead of defaulting to 255 the way the animated branch (`?? 255`), the
texture sampler (`: 255`) and the earlier revision of `getBlock`
(`image.shape[2] > 3 ? image.get(x, z, 3) : 255`) all do. The pixel index
itself is `⌊width·u⌋, ⌊height·v⌋` as the claim states. -/
theorem c6_code_bug :
    getBlockSample c6Image 0 0 = (some 10, some 20, some 30, some 40) ∧
      (some 40 : Option ℕ) ≠ some 255 ∧
      ⌊(c6Image.width : ℚ) * 0⌋ = 0 ∧ ⌊(c6Image.height : ℚ) * 0⌋ = 0 := by
  refine ⟨?_, by decide, by norm_num, by norm_num⟩
  show (imageGet c6Image ⌊(2 : ℚ) * 0⌋ ⌊(1 : ℚ) * 0⌋ 0, _, _, _) = _
  norm_num [imageGet, c6Image]
  decide

/-! ## Build scheduler (index.js `buildImage` / `buildGif`) -/

/-- The `printData` record of index.js (the rendered bar string is
elided; `metadata` is not touched by any claim). -/
structure PrintState where
  isPrinting : Bool
  progress : ℚ
  currentTask : Option String
  cancelRequested : Bool
  placedBlocks : ℕ
  totalBlocks : ℕ
deriving Repr, DecidableEq

/-- The module-initial `printData` value. -/
def initialPrintState : PrintState :=
  { isPrinting := false, progress := 0, currentTask := none, cancelRequested := false,
    placedBlocks := 0, totalBlocks := 0 }

/-- Source `updateProgressBar(progress)`: clamp to `[0, 1]` and store. -/
def updateProgressBar (progress : ℚ) (st : PrintState) : PrintState :=
  { st with progress := max 0 (min 1 progress) }

/-- Source `updatePrintProgress(completed, total)`. -/
def updatePrintProgress (completed total : ℕ) (st : PrintState) : PrintState :=
  updateProgressBar (if 0 < total then (completed : ℚ) / total else 0)
    { st with placedBlocks := completed, totalBlocks := total }

/-- Source `startPrintTask(name, totalBlocks)`. -/
def startPrintTask (name : String) (totalBlocks : ℕ) (st : PrintState) : PrintState :=
  updatePrintProgress 0 totalBlocks
    { st with isPrinting := true, currentTask := some name, cancelRequested := false }

/-- Source `finishPrintTask` with its cancelled flag: reset every job field unconditionally
(progress is completed first on a non-cancelled exit). -/
def finishPrintTask (cancelled : Bool) (st : PrintState) : PrintState :=
  let st :=
    if ¬cancelled ∧ 0 < st.totalBlocks then updatePrintProgress st.totalBlocks st.totalBlocks st
    else updateProgressBar 0 st
  { st with
      isPrinting := false
      currentTask := none
      cancelRequested := false
      placedBlocks := 0
      totalBlocks := 0 }

/-- The state the scan loop of `buildImage`/`buildGif` threads: the shared
`printData`, the voxel operations issued so far (each as grid cell plus
resolved material; the world position is `targetStart.offset(k,0,z).floor()`),
the local `cancelled` flag and a pending thrown error. -/
structure RunState where
  print : PrintState
  ops : List ((ℕ × ℤ) × String)
  cancelled : Bool
  err : Option String
deriving Repr, DecidableEq

/-- One voxel of the scan body: check `printData.cancelRequested` (the
value the check at this point observes is supplied by the oracle `cancel`,
indexed by the number of voxels already processed — the flag is only ever
flipped by the outside world while the loop is suspended), and if it is
set, mark cancellation and stop; otherwise resolve the material, issue the
voxel operation (`/setblock` chat, `placeBlock` or `clearBlock` — its
outcome supplied by the oracle `act`, a thrown error propagating), then
`updatePrintProgress(placedBlocks + 1, total)`. -/
def processCell (blockAt : ℕ → ℤ → String) (cancel : ℕ → Bool)
    (act : ℕ → Except String Unit) (cell : ℕ × ℤ) (st : RunState) : RunState :=
  if cancel st.print.placedBlocks then
    { st with cancelled := true, print := { st.print with cancelRequested := true } }
  else
    let block := blockAt cell.1 cell.2
    let st := { st with ops := st.ops ++ [(cell, block)] }
    match act st.print.placedBlocks with
    | .ok _ =>
        { st with print :=
            updatePrintProgress (st.print.placedBlocks + 1) st.print.totalBlocks st.print }
    | .error e => { st with err := some e }

/-- The scan over a cell list with the early exits of the source's loop
nest: once `cancelled` is set (or an error is thrown) every remaining cell
is skipped — the inner `break`, the `if (cancelled) break`, and the outer
loop's `!cancelled` condition (resp. exception unwinding) perform no
further voxel work, so the nested loops are exactly this linear early-exit
scan of their visit order. -/
def runCells (blockAt : ℕ → ℤ → String) (cancel : ℕ → Bool)
    (act : ℕ → Except String Unit) : List (ℕ × ℤ) → RunState → RunState
  | [], st => st
  | cell :: rest, st =>
      if st.cancelled ∨ st.err.isSome then st
      else runCells blockAt cancel act rest (processCell blockAt cancel act cell st)

/-- The row indices the `while (z >= 0 && z < size[1])` sweep visits from a
given starting `z` and direction (`z += zDirection` each iteration),
paired with the value of `z` at loop exit. `z` moves one step per
iteration, so from any start the loop runs at most `h` times; the fuel
(`h + 1` at every call site) is never exhausted. -/
def zSweep (h : ℕ) (up : Bool) : ℤ → ℕ → List ℤ × ℤ
  | z, 0 => ([], z)
  | z, fuel + 1 =>
      if 0 ≤ z ∧ z < (h : ℤ) then
        let r := zSweep h up (if up then z + 1 else z - 1) fuel
        (z :: r.1, r.2)
      else ([], z)

/-- The chunk start columns of the outer `for (x = 0; x < w; x += c)` loop:
`0, c, 2c, …` below `w`. For a positive step `c` the loop runs at most `w`
times, so the fuel (`w + 1` at the call site) is never exhausted. -/
def chunkStarts (w c : ℕ) : ℕ → ℕ → List ℕ
  | _, 0 => []
  | x, fuel + 1 => if x < w then x :: chunkStarts w c (x + c) fuel else []

/-- The cells of one chunk-row: the inner `for (xx = 0; xx < c && x+xx < w; xx++)`
visits columns `x+xx` in increasing order at the current `z`. -/
def rowCells (w c x : ℕ) (z : ℤ) : List (ℕ × ℤ) :=
  (List.range c).filterMap fun xx => if x + xx < w then some (x + xx, z) else none

/-- The serpentine visit order: fold the chunks, threading the continuation
row `z` and performing the end-of-chunk `zDirection = -zDirection;
z += zDirection` flip. -/
def serpentineGo (w h c : ℕ) : List ℕ → Bool → ℤ → List (ℕ × ℤ)
  | [], _, _ => []
  | x :: xs, up, z =>
      let sw := zSweep h up z (h + 1)
      let up' := !up
      (sw.1.map (rowCells w c x)).flatten ++
        serpentineGo w h c xs up' (sw.2 + if up' then 1 else -1)

/-- The complete cell visit order of `buildImage`/`buildGif` for a
`w × h` grid and chunk size `c` (direction starts upward from `z = 0`). -/
def serpentineOrder (w h c : ℕ) : List (ℕ × ℤ) :=
  serpentineGo w h c (chunkStarts w c 0 (w + 1)) true 0

/-- The `try` block of `buildImage`/`buildGif`: scan the serpentine order
starting from a freshly started print task. -/
def buildScan (w h c : ℕ) (blockAt : ℕ → ℤ → String) (cancel : ℕ → Bool)
    (act : ℕ → Except String Unit) (print : PrintState) : RunState :=
  runCells blockAt cancel act (serpentineOrder w h c)
    { print := print, ops := [], cancelled := false, err := none }

/-- The observable outcome of one `buildImage`/`buildGif` call: the
returned cancelled flag (or the propagated thrown error), the shared
`printData` after the `finally` clause, and the scan state for inspection
of the issued operations. -/
structure BuildOutcome where
  result : Except String Bool
  final : PrintState
  scan : RunState

/-- index.js `buildImage`: `startPrintTask('Image build', w*h)`, the
serpentine scan, and — on every exit path, via `try … finally` —
`finishPrintTask` with the local cancelled flag. -/
def buildImageRun (w h c : ℕ) (blockAt : ℕ → ℤ → String) (cancel : ℕ → Bool)
    (act : ℕ → Except String Unit) (print : PrintState) : BuildOutcome :=
  let scan := buildScan w h c blockAt cancel act (startPrintTask "Image build" (w * h) print)
  { result :=
      match scan.err with
      | some e => .error e
      | none => .ok scan.cancelled
    final := finishPrintTask scan.cancelled scan.print
    scan := scan }

/-- index.js `buildGif` (one frame): identical loop nest with the frame
sampler and the `GIF frame n` task label. -/
def buildGifRun (w h c frame : ℕ) (blockAt : ℕ → ℤ → String) (cancel : ℕ → Bool)
    (act : ℕ → Except String Unit) (print : PrintState) : BuildOutcome :=
  let scan := buildScan w h c blockAt cancel act
    (startPrintTask ("GIF frame " ++ toString (frame + 1)) (w * h) print)
  { result :=
      match scan.err with
      | some e => .error e
      | none => .ok scan.cancelled
    final := finishPrintTask scan.cancelled scan.print
    scan := scan }

/-! ### Projection lemmas for the print-state helpers -/

@[simp] theorem updateProgressBar_placedBlocks (p : ℚ) (st : PrintState) :
    (updateProgressBar p st).placedBlocks = st.placedBlocks := rfl

@[simp] theorem updateProgressBar_totalBlocks (p : ℚ) (st : PrintState) :
    (updateProgressBar p st).totalBlocks = st.totalBlocks := rfl

@[simp] theorem updateProgressBar_cancelRequested (p : ℚ) (st : PrintState) :
    (updateProgressBar p st).cancelRequested = st.cancelRequested := rfl

@[simp] theorem updatePrintProgress_placedBlocks (completed total : ℕ) (st : PrintState) :
    (updatePrintProgress completed total st).placedBlocks = completed := rfl

@[simp] theorem updatePrintProgress_totalBlocks (completed total : ℕ) (st : PrintState) :
    (updatePrintProgress completed total st).totalBlocks = total := rfl

@[simp] theorem startPrintTask_placedBlocks (name : String) (total : ℕ) (st : PrintState) :
    (startPrintTask name total st).placedBlocks = 0 := rfl

/-! ### The scan stops at the first observed cancellation -/

/-- Once `cancelled` (or an error) is set the scan touches no further cell. -/
theorem runCells_stopped (blockAt : ℕ → ℤ → String) (cancel : ℕ → Bool)
    (act : ℕ → Except String Unit) (cells : List (ℕ × ℤ)) (st : RunState)
    (h : st.cancelled = true ∨ st.err.isSome) :
    runCells blockAt cancel act cells st = st := by
  cases cells with
  | nil => rfl
  | cons cell rest =>
      rw [runCells, if_pos (by rcases h with h | h <;> simp [h])]

/-- Core behavior of the per-voxel cancellation check: if the `cancel`
oracle is `false` for the first `j` checks a scan performs and `true` at
the `j`-th one (`j` within the cell list), the scan marks cancellation,
has issued exactly the operations of the first `j` cells, and has counted
exactly `j` voxels — the in-flight voxel is never aborted and no later
cell is touched. -/
theorem runCells_cancel_at (blockAt : ℕ → ℤ → String) (cancel : ℕ → Bool)
    (act : ℕ → Except String Unit) (cells : List (ℕ × ℤ)) :
    ∀ (st : RunState) (j : ℕ),
      st.cancelled = false → st.err = none → (∀ n, act n = .ok ()) →
      j < cells.length →
      (∀ i, i < j → cancel (st.print.placedBlocks + i) = false) →
      cancel (st.print.placedBlocks + j) = true →
      (runCells blockAt cancel act cells st).cancelled = true ∧
        (runCells blockAt cancel act cells st).err = none ∧
        (runCells blockAt cancel act cells st).ops
          = st.ops ++ (cells.take j).map (fun cl => (cl, blockAt cl.1 cl.2)) ∧
        (runCells blockAt cancel act cells st).print.placedBlocks
          = st.print.placedBlocks + j := by
  induction cells with
  | nil => intro st j _ _ _ hj _ _; exact absurd hj (by simp)
  | cons cell rest ih =>
      intro st j hcan herr hacts hj hfalse htrue
      have hguard : (st.cancelled ∨ st.err.isSome) = False := by
        simp [hcan, herr]
      rw [runCells, if_neg (by simp [hcan, herr])]
      cases j with
      | zero =>
          have hstop : cancel st.print.placedBlocks = true := by simpa using htrue
          have hproc : processCell blockAt cancel act cell st
              = { st with
                    cancelled := true
                    print := { st.print with cancelRequested := true } } := by
            rw [processCell, if_pos hstop]
          rw [hproc, runCells_stopped _ _ _ _ _ (Or.inl rfl)]
          simp [herr]
      | succ j' =>
          have hzero : cancel st.print.placedBlocks = false := by
            simpa using hfalse 0 (Nat.succ_pos j')
          have hproc : processCell blockAt cancel act cell st
              = { st with
                    ops := st.ops ++ [(cell, blockAt cell.1 cell.2)],
                    print := updatePrintProgress (st.print.placedBlocks + 1)
                      st.print.totalBlocks st.print } := by
            rw [processCell, if_neg (by simp [hzero])]
            simp [hacts st.print.placedBlocks]
          rw [hproc]
          have := ih { st with
              ops := st.ops ++ [(cell, blockAt cell.1 cell.2)],
              print := updatePrintProgress (st.print.placedBlocks + 1)
                st.print.totalBlocks st.print } j'
            (by simp [hcan]) (by simp [herr]) hacts
            (by simpa using Nat.lt_of_succ_lt_succ hj)
            (by intro i hi
                have := hfalse (i + 1) (Nat.succ_lt_succ hi)
                simpa [Nat.add_assoc, Nat.add_comm 1 i] using this)
            (by simpa [Nat.add_assoc, Nat.add_comm 1 j'] using htrue)
          refine ⟨this.1, this.2.1, ?_, ?_⟩
          · rw [this.2.2.1]
            simp [List.take_succ_cons]
          · rw [this.2.2.2]
            simp
            omega

/-! ### The serpentine order covers the whole grid -/

theorem zSweep_up_spec (h : ℕ) :
    ∀ (fuel : ℕ) (z : ℤ), 0 ≤ z → z ≤ (h : ℤ) → (h : ℤ) - z < fuel →
      (zSweep h true z fuel).1.length = ((h : ℤ) - z).toNat ∧
        (zSweep h true z fuel).2 = h := by
  intro fuel
  induction fuel with
  | zero => intro z h0 hz hf; omega
  | succ fuel ih =>
      intro z h0 hz hf
      by_cases hin : 0 ≤ z ∧ z < (h : ℤ)
      · have hrec := ih (z + 1) (by omega) (by omega) (by omega)
        rw [zSweep, if_pos hin]
        constructor
        · simp [hrec.1]
          omega
        · simp [hrec.2]
      · have hz' : z = (h : ℤ) := by omega
        rw [zSweep, if_neg hin]
        constructor
        · simp [hz']
        · simp [hz']

theorem zSweep_down_spec (h : ℕ) :
    ∀ (fuel : ℕ) (z : ℤ), -1 ≤ z → z < (h : ℤ) → z + 1 < fuel →
      (zSweep h false z fuel).1.length = (z + 1).toNat ∧
        (zSweep h false z fuel).2 = -1 := by
  intro fuel
  induction fuel with
  | zero => intro z h0 hz hf; omega
  | succ fuel ih =>
      intro z h0 hz hf
      by_cases hin : 0 ≤ z ∧ z < (h : ℤ)
      · have hrec := ih (z - 1) (by omega) (by omega) (by omega)
        rw [zSweep, if_pos hin]
        constructor
        · simp [hrec.1]
          omega
        · simp [hrec.2]
      · have hz' : z = -1 := by omega
        rw [zSweep, if_neg hin]
        constructor
        · simp [hz']
        · simp [hz']

theorem rowCells_length (w c x : ℕ) (z : ℤ) :
    (rowCells w c x z).length = min c (w - x) := by
  induction c with
  | zero => simp [rowCells]
  | succ c ih =>
      rw [rowCells, List.range_succ, List.filterMap_append]
      rw [rowCells] at ih
      by_cases hxc : x + c < w
      · simp only [List.length_append, ih, List.filterMap, if_pos hxc]
        simp
        omega
      · simp only [List.length_append, ih, List.filterMap, if_neg hxc]
        simp
        omega

theorem flatten_rowCells_length (w c x : ℕ) (rows : List ℤ) :
    ((rows.map (rowCells w c x)).flatten).length = rows.length * min c (w - x) := by
  induction rows with
  | nil => simp
  | cons r rows ih =>
      simp [ih, rowCells_length, Nat.succ_mul, Nat.add_comm]

theorem chunkStarts_sum (w c : ℕ) :
    ∀ (fuel x : ℕ), w - x ≤ fuel * c →
      ((chunkStarts w c x fuel).map fun x => min c (w - x)).sum = w - x := by
  intro fuel
  induction fuel with
  | zero => intro x hx; rw [chunkStarts]; simp; omega
  | succ fuel ih =>
      intro x hx
      by_cases hxw : x < w
      · rw [chunkStarts, if_pos hxw]
        have := ih (x + c) (by
          have : (fuel + 1) * c = fuel * c + c := by ring
          omega)
        simp only [List.map_cons, List.sum_cons, this]
        omega
      · rw [chunkStarts, if_neg hxw]
        simp
        omega

theorem serpentineGo_cons (w h c x : ℕ) (xs : List ℕ) (up : Bool) (z : ℤ) :
    serpentineGo w h c (x :: xs) up z
      = ((zSweep h up z (h + 1)).1.map (rowCells w c x)).flatten
        ++ serpentineGo w h c xs (!up)
            ((zSweep h up z (h + 1)).2 + if (!up) then 1 else -1) := rfl

theorem serpentineGo_length (w h c : ℕ) :
    ∀ (starts : List ℕ) (up : Bool) (z : ℤ),
      (if up then z = 0 else z = (h : ℤ) - 1) →
      (serpentineGo w h c starts up z).length
        = ((starts.map fun x => min c (w - x)).sum) * h := by
  intro starts
  induction starts with
  | nil => intro up z _; simp [serpentineGo]
  | cons x xs ih =>
      intro up z hz
      cases up with
      | true =>
          have hz0 : z = 0 := by simpa using hz
          subst hz0
          have hs := zSweep_up_spec h (h + 1) 0 le_rfl (by omega) (by omega)
          have hnext := ih false ((h : ℤ) - 1) (by simp)
          rw [serpentineGo_cons, hs.2, Bool.not_true]
          rw [show ((h : ℤ) + if (false : Bool) then 1 else -1) = (h : ℤ) - 1 by
            norm_num [sub_eq_add_neg]]
          rw [List.length_append, flatten_rowCells_length, hs.1, hnext]
          simp only [List.map_cons, List.sum_cons]
          have htn : ((h : ℤ) - 0).toNat = h := by omega
          rw [htn]
          ring
      | false =>
          have hz0 : z = (h : ℤ) - 1 := by simpa using hz
          subst hz0
          have hs := zSweep_down_spec h (h + 1) ((h : ℤ) - 1) (by omega) (by omega) (by omega)
          have hnext := ih true 0 (by simp)
          rw [serpentineGo_cons, hs.2, Bool.not_false]
          rw [show ((-1 : ℤ) + if (true : Bool) then 1 else -1) = 0 by norm_num]
          rw [List.length_append, flatten_rowCells_length, hs.1, hnext]
          simp only [List.map_cons, List.sum_cons]
          have htn : ((h : ℤ) - 1 + 1).toNat = h := by omega
          rw [htn]
          ring

theorem serpentineOrder_length (w h c : ℕ) (hc : 1 ≤ c) :
    (serpentineOrder w h c).length = w * h := by
  rw [serpentineOrder, serpentineGo_length w h c _ true 0 (by simp)]
  have hsum := chunkStarts_sum w c (w + 1) 0 (by
    calc w - 0 ≤ (w + 1) * 1 := by omega
    _ ≤ (w + 1) * c := Nat.mul_le_mul_left _ hc)
  rw [hsum, Nat.sub_zero]

/-- Behavior of a freshly started scan whose cancellation oracle turns true
within the grid: the scan cancels, throws nothing, has issued exactly the
operations of the first `j` cells of the serpentine order for some
`j < w*h`, and has counted exactly those voxels. -/
theorem buildScan_cancel_spec (w h c : ℕ) (blockAt : ℕ → ℤ → String) (cancel : ℕ → Bool)
    (act : ℕ → Except String Unit) (label : String) (st₀ : PrintState)
    (hc : 1 ≤ c) (hacts : ∀ n, act n = .ok ()) (k : ℕ) (hk : k < w * h)
    (hcanc : cancel k = true) :
    ∃ j : ℕ, j < w * h ∧
      (buildScan w h c blockAt cancel act (startPrintTask label (w * h) st₀)).cancelled = true ∧
      (buildScan w h c blockAt cancel act (startPrintTask label (w * h) st₀)).err = none ∧
      (buildScan w h c blockAt cancel act (startPrintTask label (w * h) st₀)).ops
        = ((serpentineOrder w h c).take j).map (fun cl => (cl, blockAt cl.1 cl.2)) ∧
      (buildScan w h c blockAt cancel act
          (startPrintTask label (w * h) st₀)).print.placedBlocks = j := by
  have hex : ∃ n, cancel n = true := ⟨k, hcanc⟩
  have hjk : Nat.find hex ≤ k := Nat.find_min' hex hcanc
  have hjlt : Nat.find hex < w * h := lt_of_le_of_lt hjk hk
  have hlen : Nat.find hex < (serpentineOrder w h c).length := by
    rw [serpentineOrder_length w h c hc]; exact hjlt
  have hmain := runCells_cancel_at blockAt cancel act (serpentineOrder w h c)
    ⟨startPrintTask label (w * h) st₀, [], false, none⟩ (Nat.find hex) rfl rfl hacts hlen
    (by intro i hi
        have hfm := Nat.find_min hex hi
        simp only [Bool.not_eq_true] at hfm
        simpa using hfm)
    (by simpa using Nat.find_spec hex)
  refine ⟨Nat.find hex, hjlt, ?_, ?_, ?_, ?_⟩
  · exact hmain.1
  · exact hmain.2.1
  · rw [buildScan]
    rw [hmain.2.2.1]
    simp
  · rw [buildScan]
    rw [hmain.2.2.2]
    simp

/-! ## Claim C3 — serpentine visit order on a 4×3 grid with chunk size 2 -/

/-- C3, counterexample. The scheduler does **not** visit the claimed
column-at-a-time order: within a chunk-row the inner loop processes the
chunk's (up to) 2 columns at the *same* `z` before `z` advances, so the
second processed cell is `(1,0)`, not `(0,1)`. -/
theorem c3_counterexample :
    (buildImageRun 4 3 2 (fun _ _ => "stone") (fun _ => false) (fun _ => .ok ())
          initialPrintState).scan.ops.map Prod.fst
      ≠ [(0, 0), (0, 1), (0, 2), (1, 0), (1, 1), (1, 2),
         (2, 2), (2, 1), (2, 0), (3, 2), (3, 1), (3, 0)] := by
  decide

/-- C3, amended. For the 4×3 grid with chunk size 2 the scheduler processes
the cells in the order `(0,0),(1,0),(0,1),(1,1),(0,2),(1,2),(2,2),(3,2),
(2,1),(3,1),(2,0),(3,0)` — chunk columns interleaved at each row, the row
direction flipping (and the row position continuing) between chunks — and
on completion the scan has processed all 12 cells, `placed_count = 12 =
total_count`, returning a non-cancelled result. -/
theorem c3_amended (blockAt : ℕ → ℤ → String) (st₀ : PrintState) :
    (buildImageRun 4 3 2 blockAt (fun _ => false) (fun _ => .ok ())
          st₀).scan.ops.map Prod.fst
        = [(0, 0), (1, 0), (0, 1), (1, 1), (0, 2), (1, 2),
           (2, 2), (3, 2), (2, 1), (3, 1), (2, 0), (3, 0)] ∧
      (buildImageRun 4 3 2 blockAt (fun _ => false) (fun _ => .ok ())
          st₀).scan.print.placedBlocks = 12 ∧
      (buildImageRun 4 3 2 blockAt (fun _ => false) (fun _ => .ok ())
          st₀).scan.print.totalBlocks = 12 ∧
      (buildImageRun 4 3 2 blockAt (fun _ => false) (fun _ => .ok ())
          st₀).result = .ok false :=
  ⟨rfl, rfl, rfl, rfl⟩

/-! ## Claim C4 — cooperative cancellation mid-build -/

/-- C4. For an image or GIF build whose cancellation flag turns true at
some per-voxel check with index `k < total` (the flag is observed once per
voxel, before the voxel is issued), the scheduler stops: the job returns
a cancelled result, strictly fewer than `total_count` voxels are
processed, the issued operations are exactly the serpentine prefix up to
the stopping point (no further voxel is touched and no issued voxel is
aborted), and `placed_count` equals the number of issued voxels. -/
theorem c4_cancel_midbuild (w h c frame : ℕ) (blockAt : ℕ → ℤ → String) (cancel : ℕ → Bool)
    (act : ℕ → Except String Unit) (st₀ : PrintState) (k : ℕ)
    (hc : 1 ≤ c) (hacts : ∀ n, act n = .ok ()) (hk : k < w * h) (hcanc : cancel k = true) :
    ((buildImageRun w h c blockAt cancel act st₀).result = .ok true ∧
        (buildImageRun w h c blockAt cancel act st₀).scan.ops.length < w * h ∧
        (buildImageRun w h c blockAt cancel act st₀).scan.ops.map Prod.fst
          = (serpentineOrder w h c).take
              ((buildImageRun w h c blockAt cancel act st₀).scan.ops.length) ∧
        (buildImageRun w h c blockAt cancel act st₀).scan.print.placedBlocks
          = (buildImageRun w h c blockAt cancel act st₀).scan.ops.length) ∧
      ((buildGifRun w h c frame blockAt cancel act st₀).result = .ok true ∧
        (buildGifRun w h c frame blockAt cancel act st₀).scan.ops.length < w * h ∧
        (buildGifRun w h c frame blockAt cancel act st₀).scan.ops.map Prod.fst
          = (serpentineOrder w h c).take
              ((buildGifRun w h c frame blockAt cancel act st₀).scan.ops.length) ∧
        (buildGifRun w h c frame blockAt cancel act st₀).scan.print.placedBlocks
          = (buildGifRun w h c frame blockAt cancel act st₀).scan.ops.length) := by
  obtain ⟨j, hjlt, hcanI, herrI, hopsI, hplI⟩ :=
    buildScan_cancel_spec w h c blockAt cancel act "Image build" st₀ hc hacts k hk hcanc
  obtain ⟨j', hjlt', hcanG, herrG, hopsG, hplG⟩ :=
    buildScan_cancel_spec w h c blockAt cancel act
      ("GIF frame " ++ toString (frame + 1)) st₀ hc hacts k hk hcanc
  have hscanI : (buildImageRun w h c blockAt cancel act st₀).scan
      = buildScan w h c blockAt cancel act (startPrintTask "Image build" (w * h) st₀) := rfl
  have hscanG : (buildGifRun w h c frame blockAt cancel act st₀).scan
      = buildScan w h c blockAt cancel act
          (startPrintTask ("GIF frame " ++ toString (frame + 1)) (w * h) st₀) := rfl
  have hlenI : (buildImageRun w h c blockAt cancel act st₀).scan.ops.length = j := by
    rw [hscanI, hopsI]
    simp [serpentineOrder_length w h c hc]
    omega
  have hlenG : (buildGifRun w h c frame blockAt cancel act st₀).scan.ops.length = j' := by
    rw [hscanG, hopsG]
    simp [serpentineOrder_length w h c hc]
    omega
  refine ⟨⟨?_, ?_, ?_, ?_⟩, ⟨?_, ?_, ?_, ?_⟩⟩
  · simp only [buildImageRun, herrI, hcanI]
  · rw [hlenI]; exact hjlt
  · rw [hlenI, hscanI, hopsI]
    rw [List.map_map,
      show (Prod.fst ∘ fun cl : ℕ × ℤ => (cl, blockAt cl.1 cl.2)) = id from rfl,
      List.map_id]
  · rw [hlenI, hscanI, hplI]
  · simp only [buildGifRun, herrG, hcanG]
  · rw [hlenG]; exact hjlt'
  · rw [hlenG, hscanG, hopsG]
    rw [List.map_map,
      show (Prod.fst ∘ fun cl : ℕ × ℤ => (cl, blockAt cl.1 cl.2)) = id from rfl,
      List.map_id]
  · rw [hlenG, hscanG, hplG]

/-- The cancellation oracle of the C4 witness instance: the flag is
observed false at the first two per-voxel checks and true from the third
check on. -/
def c4Cancel : ℕ → Bool := fun n => decide (2 ≤ n)

/-- C4, witness at a concrete input: a 2×2 build with chunk size 1,
cancelled at the check with index 2 (so after two of the four voxels). -/
theorem c4_witness :
    1 ≤ 1 ∧ (∀ n : ℕ, (fun _ : ℕ => (Except.ok () : Except String Unit)) n = .ok ()) ∧
      2 < 2 * 2 ∧ c4Cancel 2 = true ∧
      (((buildImageRun 2 2 1 (fun _ _ => "stone") c4Cancel (fun _ => .ok ())
            initialPrintState).result = .ok true ∧
          (buildImageRun 2 2 1 (fun _ _ => "stone") c4Cancel (fun _ => .ok ())
              initialPrintState).scan.ops.length < 2 * 2 ∧
          (buildImageRun 2 2 1 (fun _ _ => "stone") c4Cancel (fun _ => .ok ())
              initialPrintState).scan.ops.map Prod.fst
            = (serpentineOrder 2 2 1).take
                ((buildImageRun 2 2 1 (fun _ _ => "stone") c4Cancel (fun _ => .ok ())
                    initialPrintState).scan.ops.length) ∧
          (buildImageRun 2 2 1 (fun _ _ => "stone") c4Cancel (fun _ => .ok ())
              initialPrintState).scan.print.placedBlocks
            = (buildImageRun 2 2 1 (fun _ _ => "stone") c4Cancel (fun _ => .ok ())
                initialPrintState).scan.ops.length) ∧
        ((buildGifRun 2 2 1 0 (fun _ _ => "stone") c4Cancel (fun _ => .ok ())
              initialPrintState).result = .ok true ∧
          (buildGifRun 2 2 1 0 (fun _ _ => "stone") c4Cancel (fun _ => .ok ())
              initialPrintState).scan.ops.length < 2 * 2 ∧
          (buildGifRun 2 2 1 0 (fun _ _ => "stone") c4Cancel (fun _ => .ok ())
              initialPrintState).scan.ops.map Prod.fst
            = (serpentineOrder 2 2 1).take
                ((buildGifRun 2 2 1 0 (fun _ _ => "stone") c4Cancel (fun _ => .ok ())
                    initialPrintState).scan.ops.length) ∧
          (buildGifRun 2 2 1 0 (fun _ _ => "stone") c4Cancel (fun _ => .ok ())
              initialPrintState).scan.print.placedBlocks
            = (buildGifRun 2 2 1 0 (fun _ _ => "stone") c4Cancel (fun _ => .ok ())
                initialPrintState).scan.ops.length)) :=
  ⟨by decide, fun _ => rfl, by decide, by decide,
    c4_cancel_midbuild 2 2 1 0 (fun _ _ => "stone") c4Cancel (fun _ => .ok ())
      initialPrintState 2 (by decide) (fun _ => rfl) (by decide) (by decide)⟩

/-! ## Claim C10 — the shared print state is reset on every exit path -/

/-- C10. Whatever happens during a build — normal completion, cancellation
at any point, or an error thrown while issuing a voxel — the `finally`
clause runs `finishPrintTask`, so on exit the shared print state always has
`isPrinting = false`, `currentTask = null`, `cancelRequested = false`, and
cleared placed/total counters. -/
theorem c10_state_reset (w h c frame : ℕ) (blockAt : ℕ → ℤ → String) (cancel : ℕ → Bool)
    (act : ℕ → Except String Unit) (st₀ : PrintState) :
    ((buildImageRun w h c blockAt cancel act st₀).final.isPrinting = false ∧
        (buildImageRun w h c blockAt cancel act st₀).final.currentTask = none ∧
        (buildImageRun w h c blockAt cancel act st₀).final.cancelRequested = false ∧
        (buildImageRun w h c blockAt cancel act st₀).final.placedBlocks = 0 ∧
        (buildImageRun w h c blockAt cancel act st₀).final.totalBlocks = 0) ∧
      ((buildGifRun w h c frame blockAt cancel act st₀).final.isPrinting = false ∧
        (buildGifRun w h c frame blockAt cancel act st₀).final.currentTask = none ∧
        (buildGifRun w h c frame blockAt cancel act st₀).final.cancelRequested = false ∧
        (buildGifRun w h c frame blockAt cancel act st₀).final.placedBlocks = 0 ∧
        (buildGifRun w h c frame blockAt cancel act st₀).final.totalBlocks = 0) :=
  ⟨⟨rfl, rfl, rfl, rfl, rfl⟩, ⟨rfl, rfl, rfl, rfl, rfl⟩⟩

/-! ## Mesh source parsing (model-builder.js `parseModelData`) -/

/-- Whitespace characters relevant to `trim` / `split(/\s+/)`. -/
def isWsChar (c : Char) : Bool := c = ' ' ∨ c = '\t' ∨ c = '\r' ∨ c = '\n'

/-- JS `s.trim()`. -/
def jsTrim (s : String) : String :=
  String.mk (((s.data.dropWhile isWsChar).reverse.dropWhile isWsChar).reverse)

/-- JS `row.split(/\s+/)` on an already-trimmed row: splitting on single
whitespace characters and dropping the empty fields produced by runs is
the same as splitting on whitespace runs. -/
def splitWs (s : String) : List String :=
  ((splitChar ' ' (s.data.map fun c => if isWsChar c then ' ' else c)).map String.mk).filter
    (· ≠ "")

/-- The numeric value of a digit run. -/
def digitsVal (ds : List Char) : ℕ :=
  ds.foldl (fun acc c => 10 * acc + (c.toNat - '0'.toNat)) 0

/-- JS `parseInt(tok, 10)` on the whitespace-free tokens the mesh format
produces: an optional sign followed by a longest digit prefix; no digits
at all gives `NaN` (`none`). -/
def parseIntJS (s : String) : Option ℤ :=
  let signAndRest : ℤ × List Char :=
    match s.data with
    | '-' :: rest => (-1, rest)
    | '+' :: rest => (1, rest)
    | cs => (1, cs)
  let ds := (signAndRest.2.span (·.isDigit)).1
  if ds.isEmpty then none else some (signAndRest.1 * digitsVal ds)

/-- JS `parseFloat(tok)` on the decimal numerals the mesh format uses
(optional sign, digits, optional fractional part; scientific notation is
not modelled — no claim touches it): a token with no leading numeral is
`NaN` (`none`). The value is assembled with a single `mkRat` so concrete
instances normalize inside the kernel. -/
def parseFloatJS (s : String) : Option ℚ :=
  let signAndRest : ℤ × List Char :=
    match s.data with
    | '-' :: rest => (-1, rest)
    | '+' :: rest => (1, rest)
    | cs => (1, cs)
  let intPart := signAndRest.2.span (·.isDigit)
  match intPart.2 with
  | '.' :: rest2 =>
      let fs := (rest2.span (·.isDigit)).1
      if intPart.1.isEmpty ∧ fs.isEmpty then none
      else
        some (mkRat (signAndRest.1 * (digitsVal intPart.1 * 10 ^ fs.length + digitsVal fs))
          (10 ^ fs.length))
  | _ => if intPart.1.isEmpty then none else some (mkRat (signAndRest.1 * digitsVal intPart.1) 1)

/-- One face vertex reference `v`, `v/vt` or `v/`: the vertex index and the
UV index, both 1-based in the source text and decremented here. A
reference with no (or an empty) UV part stores the literal UV **index** 0
(`faceUVs.push(0)`), not a UV coordinate. A `NaN` from `parseInt` stays
`none`. -/
def parseFaceRef (tok : String) : Option ℤ × Option ℤ :=
  let faceData := jsSplit '/' tok
  (((parseIntJS (faceData.getD 0 "")).map (· - 1)),
    if 1 < faceData.length ∧ faceData.getD 1 "" ≠ "" then
      (parseIntJS (faceData.getD 1 "")).map (· - 1)
    else some 0)

/-- The result of `parseModelData`: `size` is the retained legacy constant 1;
numeric fields hold `none` where JS would hold `NaN`. -/
structure ModelData where
  size : ℚ
  vertices : List (Option ℚ × Option ℚ × Option ℚ)
  vts : List (Option ℚ × Option ℚ)
  faces : List (List (Option ℤ))
  uvs : List (List (Option ℤ))
deriving DecidableEq, Repr

/-- model-builder.js `parseModelData`: split into trimmed nonempty rows;
`v` rows append a vertex, `vt` rows a UV coordinate, `f` rows a face (its
vertex indices and, in parallel, its UV indices via `parseFaceRef`); any
other row is ignored. -/
def parseModelData (data : String) : ModelData :=
  (((jsSplit '\n' data).map jsTrim).filter (· ≠ "")).foldl
    (fun m row =>
      let parts := splitWs row
      if parts.getD 0 "" = "v" then
        { m with vertices := m.vertices ++
            [(parseFloatJS (parts.getD 1 ""), parseFloatJS (parts.getD 2 ""),
              parseFloatJS (parts.getD 3 ""))] }
      else if parts.getD 0 "" = "vt" then
        { m with vts := m.vts ++
            [(parseFloatJS (parts.getD 1 ""), parseFloatJS (parts.getD 2 ""))] }
      else if parts.getD 0 "" = "f" then
        let refs := (parts.drop 1).map parseFaceRef
        { m with
            faces := m.faces ++ [refs.map Prod.fst]
            uvs := m.uvs ++ [refs.map Prod.snd] }
      else m)
    { size := 1, vertices := [], vts := [], faces := [], uvs := [] }

/-- buildModel's per-vertex UV resolution `model.vts[vtIndex] || [0, 0]`:
a `NaN`, negative or out-of-range UV index falls back to the literal
coordinate `[0, 0]`; otherwise the stored `vt` record is used. -/
def vtLookup (vts : List (Option ℚ × Option ℚ)) (vtIndex : Option ℤ) :
    Option ℚ × Option ℚ :=
  match vtIndex with
  | none => (some 0, some 0)
  | some i => if i < 0 then (some 0, some 0) else (vts.get? i.toNat).getD (some 0, some 0)

/-- The UV coordinates buildModel hands to the face voxelizer for face
`index`: every stored UV index of the face resolved through `vtLookup`. -/
def faceResolvedUVs (m : ModelData) (index : ℕ) : List (Option ℚ × Option ℚ) :=
  (m.uvs.getD index []).map (vtLookup m.vts)

/-! ## Claim C8 — default UV for a reference with no UV index -/

/-- A mesh source whose face references carry no UV indices while a `vt`
record exists. -/
def c8Model : String := "v 0 0 0\nv 1 0 0\nv 0 1 0\nvt 0.5 0.5\nf 1 2 3"

/-- C8, counterexample. A face vertex reference without a UV index gets UV
**index** 0, and `model.vts[0] || [0,0]` then resolves to the **first `vt`
record** — `(0.5, 0.5)` here — not to the coordinate `(0,0)` the claim
states. -/
theorem c8_counterexample :
    (parseModelData c8Model).uvs = [[some 0, some 0, some 0]] ∧
      (parseModelData c8Model).vts = [(some (mkRat 1 2), some (mkRat 1 2))] ∧
      faceResolvedUVs (parseModelData c8Model) 0
        = [(some (mkRat 1 2), some (mkRat 1 2)), (some (mkRat 1 2), some (mkRat 1 2)),
           (some (mkRat 1 2), some (mkRat 1 2))] ∧
      (some (mkRat 1 2), some (mkRat 1 2)) ≠ ((some 0, some 0) : Option ℚ × Option ℚ) := by
  decide

/-- C8, amended. A face vertex reference with no UV index defaults to UV
**index** 0; the coordinate used during voxelization is therefore the
first `vt` record of the mesh when one exists, and `(0,0)` only when the
`vt` list is empty. -/
theorem c8_amended (tok : String) (h : jsSplit '/' tok = [tok]) (uv0 : Option ℚ × Option ℚ)
    (rest : List (Option ℚ × Option ℚ)) :
    (parseFaceRef tok).2 = some 0 ∧
      vtLookup (uv0 :: rest) (some 0) = uv0 ∧
      vtLookup [] (some 0) = (some 0, some 0) := by
  refine ⟨?_, rfl, rfl⟩
  rw [parseFaceRef]
  simp [h]

/-- C8, witness for the amended theorem at a concrete slash-free reference. -/
theorem c8_witness :
    jsSplit '/' "7" = ["7"] ∧
      ((parseFaceRef "7").2 = some 0 ∧
        vtLookup [(some (mkRat 1 2), some (mkRat 1 2))] (some 0)
          = (some (mkRat 1 2), some (mkRat 1 2)) ∧
        vtLookup [] (some 0) = (some 0, some 0)) :=
  ⟨by decide, c8_amended "7" (by decide) (some (mkRat 1 2), some (mkRat 1 2)) []⟩

/-! ## Face voxelization call structure (model-builder.js) — Claim C7 -/

/-- A voxelization call the per-face body of `buildModel` issues: a line
or a triangle with its endpoint UVs. -/
inductive MBCall (P U : Type) where
  | line (a b : P) (uva uvb : U)
  | tri (a b c : P) (uva uvb uvc : U)
deriving DecidableEq

/-- model-builder.js `buildQuad`: voxelize triangle `(A,B,C)` with UVs
`(uv0,uv1,uv2)`, then triangle `(C,D,A)` with UVs `(uv2,uv3,uv0)` —
nothing else. -/
def buildQuadCalls {P U : Type} (a b c d : P) (u0 u1 u2 u3 : U) : List (MBCall P U) :=
  [MBCall.tri a b c u0 u1 u2, MBCall.tri c d a u2 u3 u0]

/-- The voxelization calls `buildModel` issues for one face: the triangle
(arity 3) or quad (arity 4) sweep, followed by the explicit boundary
edges `face[k] – face[k+1]` for `k < face.length - 1` — the loop stops one
short of the closing edge. -/
def buildFaceCalls {P U : Type} [Inhabited P] [Inhabited U] (face : List P) (uv : List U) :
    List (MBCall P U) :=
  (if face.length = 3 then
      [MBCall.tri (face.getD 0 default) (face.getD 1 default) (face.getD 2 default)
        (uv.getD 0 default) (uv.getD 1 default) (uv.getD 2 default)]
    else if face.length = 4 then
      buildQuadCalls (face.getD 0 default) (face.getD 1 default) (face.getD 2 default)
        (face.getD 3 default) (uv.getD 0 default) (uv.getD 1 default) (uv.getD 2 default)
        (uv.getD 3 default)
    else [])
    ++ (List.range (face.length - 1)).map fun k =>
        MBCall.line (face.getD k default) (face.getD (k + 1) default)
          (uv.getD k default) (uv.getD (k + 1) default)

/-- C7, counterexample. For the unit quad `A,B,C,D` the per-face calls are
the two triangles and only **three** boundary edge lines `A–B`, `B–C`,
`C–D`: the closing edge `D–A` is **not** voxelized as an explicit line
(the edge loop runs `k < face.length - 1`). -/
theorem c7_counterexample :
    buildFaceCalls (P := ℚ × ℚ × ℚ) (U := ℚ × ℚ)
        [(0, 0, 0), (1, 0, 0), (1, 1, 0), (0, 1, 0)] [(0, 0), (1, 0), (1, 1), (0, 1)]
        = [MBCall.tri (0, 0, 0) (1, 0, 0) (1, 1, 0) (0, 0) (1, 0) (1, 1),
           MBCall.tri (1, 1, 0) (0, 1, 0) (0, 0, 0) (1, 1) (0, 1) (0, 0),
           MBCall.line (0, 0, 0) (1, 0, 0) (0, 0) (1, 0),
           MBCall.line (1, 0, 0) (1, 1, 0) (1, 0) (1, 1),
           MBCall.line (1, 1, 0) (0, 1, 0) (1, 1) (0, 1)] ∧
      MBCall.line (P := ℚ × ℚ × ℚ) (U := ℚ × ℚ) (0, 1, 0) (0, 0, 0) (0, 1) (0, 0)
        ∉ buildFaceCalls (P := ℚ × ℚ × ℚ) (U := ℚ × ℚ)
          [(0, 0, 0), (1, 0, 0), (1, 1, 0), (0, 1, 0)] [(0, 0), (1, 0), (1, 1), (0, 1)] := by
  constructor
  · decide
  · decide

/-- C7, amended. Voxelizing a quad `A,B,C,D` issues triangle `(A,B,C)`,
then triangle `(C,D,A)`, and additionally voxelizes exactly the three
consecutive boundary edges `A–B`, `B–C`, `C–D` as explicit lines; the
closing edge `D–A` is never voxelized as an explicit line (whatever UVs it
would carry), provided `D` is distinct from the other corners. -/
theorem c7_amended {P U : Type} [DecidableEq P] [Inhabited P] [Inhabited U]
    (A B C D : P) (u0 u1 u2 u3 : U) (hDA : D ≠ A) (hDB : D ≠ B) (hDC : D ≠ C) :
    buildFaceCalls [A, B, C, D] [u0, u1, u2, u3]
        = buildQuadCalls A B C D u0 u1 u2 u3
          ++ [MBCall.line A B u0 u1, MBCall.line B C u1 u2, MBCall.line C D u2 u3] ∧
      ∀ ua ub : U, MBCall.line D A ua ub ∉ buildFaceCalls [A, B, C, D] [u0, u1, u2, u3] := by
  constructor
  · rfl
  · intro ua ub hmem
    simp [buildFaceCalls, buildQuadCalls, hDA, hDB, hDC] at hmem
    obtain ⟨a, ha, h1, h2, _, _⟩ := hmem
    interval_cases a
    · exact hDA (show A = D by simpa using h1).symm
    · exact hDB (show B = D by simpa using h1).symm
    · exact hDC (show C = D by simpa using h1).symm

/-- C7, witness for the amended theorem at the concrete unit quad. -/
theorem c7_witness :
    ((0, 1, 0) : ℚ × ℚ × ℚ) ≠ (0, 0, 0) ∧ ((0, 1, 0) : ℚ × ℚ × ℚ) ≠ (1, 0, 0) ∧
      ((0, 1, 0) : ℚ × ℚ × ℚ) ≠ (1, 1, 0) ∧
      (buildFaceCalls (P := ℚ × ℚ × ℚ) (U := ℚ × ℚ)
          [(0, 0, 0), (1, 0, 0), (1, 1, 0), (0, 1, 0)] [(0, 0), (1, 0), (1, 1), (0, 1)]
          = buildQuadCalls (0, 0, 0) (1, 0, 0) (1, 1, 0) (0, 1, 0) (0, 0) (1, 0) (1, 1) (0, 1)
            ++ [MBCall.line (0, 0, 0) (1, 0, 0) (0, 0) (1, 0),
                MBCall.line (1, 0, 0) (1, 1, 0) (1, 0) (1, 1),
                MBCall.line (1, 1, 0) (0, 1, 0) (1, 1) (0, 1)] ∧
        ∀ ua ub : ℚ × ℚ, MBCall.line (0, 1, 0) (0, 0, 0) ua ub
          ∉ buildFaceCalls (P := ℚ × ℚ × ℚ) (U := ℚ × ℚ)
            [(0, 0, 0), (1, 0, 0), (1, 1, 0), (0, 1, 0)] [(0, 0), (1, 0), (1, 1), (0, 1)]) :=
  ⟨by decide, by decide, by decide,
    c7_amended (0, 0, 0) (1, 0, 0) (1, 1, 0) (0, 1, 0) (0, 0) (1, 0) (1, 1) (0, 1)
      (by decide) (by decide) (by decide)⟩

/-! ## Line voxelization (model-builder.js) — Claim C5

The voxelizer interpolates at `t = i / distance` with `distance` a
euclidean length, so this part of the pipeline genuinely lives in `ℝ`
(JS float64 abstracted to the reals); the concrete instances below are
chosen so that every quantity reduces to a rational value. -/

/-- Source `distanceBetweenPoints` — `Math.hypot` of the componentwise differences. -/
noncomputable def distanceBetweenPoints (a b : ℝ × ℝ × ℝ) : ℝ :=
  Real.sqrt ((a.1 - b.1) ^ 2 + (a.2.1 - b.2.1) ^ 2 + (a.2.2 - b.2.2) ^ 2)

/-- Source `lerp(a, b, t) = (1 - t) * a + t * b`. -/
noncomputable def lerp (a b t : ℝ) : ℝ := (1 - t) * a + t * b

/-- Source `lerp2D` — componentwise `lerp` on UV pairs. -/
noncomputable def lerp2D (a b : ℝ × ℝ) (t : ℝ) : ℝ × ℝ :=
  (lerp a.1 b.1 t, lerp a.2 b.2 t)

/-- Source `lerp3D` — componentwise `lerp` on 3D points. -/
noncomputable def lerp3D (a b : ℝ × ℝ × ℝ) (t : ℝ) : ℝ × ℝ × ℝ :=
  (lerp a.1 b.1 t, lerp a.2.1 b.2.1 t, lerp a.2.2 b.2.2 t)

/-- Source `Math.floor` per axis (the moment of truncation before placement). -/
noncomputable def floorPt (p : ℝ × ℝ × ℝ) : ℤ × ℤ × ℤ := (⌊p.1⌋, ⌊p.2.1⌋, ⌊p.2.2⌋)

/-- model-builder.js `getTextureColor`: clamp `⌊uv₀·w⌋` to `[0, w-1]` and
`⌊(1-uv₁)·h⌋` to `[0, h-1]`, read the three channels, and default alpha to
255 unless the texture has a fourth channel. (For a well-formed buffer the
clamped reads are in bounds; a short buffer's `undefined` is read as 0.) -/
noncomputable def getTextureColor (i : Image3) (uv : ℝ × ℝ) : ℤ × ℤ × ℤ × ℤ :=
  let x := min ((i.width : ℤ) - 1) (max 0 ⌊uv.1 * (i.width : ℝ)⌋)
  let y := min ((i.height : ℤ) - 1) (max 0 ⌊(1 - uv.2) * (i.height : ℝ)⌋)
  (((imageGet i x y 0).getD 0 : ℤ), ((imageGet i x y 1).getD 0 : ℤ),
    ((imageGet i x y 2).getD 0 : ℤ),
    if 3 < i.channels then ((imageGet i x y 3).getD 0 : ℤ) else 255)

/-- model-builder.js `getBlockFromUV`: sample the texture, then resolve
through `bot.colors.getBlock(color)` with its default palette key
`'zero-gravity'` and default mode `'rgb'`. -/
noncomputable def getBlockFromUV (env : ColorEnv) (texture : Image3) (uv : ℝ × ℝ) : String :=
  let c := getTextureColor texture uv
  getBlockFromColor env c.1 c.2.1 c.2.2.1 c.2.2.2 "zero-gravity" "rgb"

/-- model-builder.js `setBlock`: a transparent material (`'air'` or
`'cave_air'`) is skipped outright — no `/setblock` is issued, neither a
placement nor a clear. -/
def setBlockOps (position : ℤ × ℤ × ℤ) (blockType : String) :
    List ((ℤ × ℤ × ℤ) × String) :=
  if blockType = "air" ∨ blockType = "cave_air" then [] else [(position, blockType)]

/-- model-builder.js `buildLine`: `distance = Math.max(1, |A-B|)` and the
loop `for (i = 0; i < distance; i++)` runs over exactly the naturals below
the real `distance` — for `distance ≥ 1` these are `0, …, ⌈distance⌉ - 1`
(see `buildLine_step_iff`). Each step interpolates position and UV at
`t = i / distance`, floors the position per axis, resolves the material,
and issues the (possibly skipped) `setBlock`. -/
noncomputable def buildLineOps (env : ColorEnv) (texture : Image3)
    (pointA pointB : ℝ × ℝ × ℝ) (uvA uvB : ℝ × ℝ) : List ((ℤ × ℤ × ℤ) × String) :=
  let distance := max 1 (distanceBetweenPoints pointA pointB)
  (List.range ⌈distance⌉₊).flatMap fun i =>
    let t := (i : ℝ) / distance
    let point := lerp3D pointA pointB t
    let pointUV := lerp2D uvA uvB t
    let block := getBlockFromUV env texture pointUV
    setBlockOps (floorPt point) block

/-- The loop bound used by `buildLineOps` is faithful: a natural `i`
satisfies the source's loop condition `i < distance` exactly when
`i < ⌈distance⌉` (no positivity side condition is even needed). -/
theorem buildLine_step_iff (d : ℝ) (i : ℕ) : (i : ℝ) < d ↔ i < ⌈d⌉₊ :=
  (Nat.lt_ceil).symm

theorem lerp_zero (a b : ℝ) : lerp a b 0 = a := by simp [lerp]

theorem lerp2D_zero (a b : ℝ × ℝ) : lerp2D a b 0 = a := by simp [lerp2D, lerp_zero]

theorem lerp3D_zero (a b : ℝ × ℝ × ℝ) : lerp3D a b 0 = a := by simp [lerp3D, lerp_zero]

/-- A degenerate line `A == B` performs exactly one loop step, at `t = 0`:
the emitted operations are exactly those of a single `setBlock` at
`floor(A)` with the material resolved at `uvA` — one placement when that
material is solid, nothing at all when it is transparent. -/
theorem buildLineOps_degenerate (env : ColorEnv) (texture : Image3) (A : ℝ × ℝ × ℝ)
    (uvA uvB : ℝ × ℝ) :
    buildLineOps env texture A A uvA uvB
      = setBlockOps (floorPt A) (getBlockFromUV env texture uvA) := by
  have hd : distanceBetweenPoints A A = 0 := by
    simp [distanceBetweenPoints]
  rw [buildLineOps, hd]
  rw [show max (1 : ℝ) 0 = 1 from max_eq_left (by norm_num)]
  rw [show ⌈(1 : ℝ)⌉₊ = 1 from Nat.ceil_one]
  simp [List.range_succ, lerp3D_zero, lerp2D_zero]

/-- The matcher environment of the C5 concrete instance: the voxelizer's
default palette `"zero-gravity"` is defined and nonempty. -/
def c5Env : ColorEnv where
  palettes := fun n =>
    if n = "zero-gravity" then
      some [⟨"white_concrete", (240, 240, 240), (236, 236, 236)⟩]
    else none
  settingsMode := "rgb"
  settingsColor := "average"
  dRGB := rgbWeightedSq
  dLAB := fun _ _ => 0

/-- A 1×1 RGBA texture whose only pixel is fully transparent. -/
def c5Texture : Image3 := ⟨1, 1, 4, [200, 100, 50, 0]⟩

/-- C5, counterexample. Voxelizing the degenerate line
`A == B == (0,0,0)` over a fully transparent texture emits **nothing**:
the resolved material is the transparent sentinel `'air'` and `setBlock`
skips it — no clear (and no placement) is issued, where the claim requires
a clear to be emitted for a transparent material (and §8 an unconditional
placement). -/
theorem c5_counterexample :
    getBlockFromUV c5Env c5Texture (0, 0) = "air" ∧
      buildLineOps c5Env c5Texture (0, 0, 0) (0, 0, 0) (0, 0) (0, 0) = [] := by
  have htex : getTextureColor c5Texture (0, 0) = (200, 100, 50, 0) := by
    rw [getTextureColor]
    norm_num [imageGet, c5Texture]
    decide
  have hair : getBlockFromUV c5Env c5Texture (0, 0) = "air" := by
    rw [getBlockFromUV, htex]
    decide
  refine ⟨hair, ?_⟩
  rw [buildLineOps_degenerate, hair]
  rfl

/-- C5, amended. Line voxelization uses `steps = max(1, |A-B|)` and for
each natural `i < steps` interpolates position and UV at `t = i/steps`,
floors each axis, and resolves a material — but it emits a placement only
for a non-transparent material and **skips** transparent ones entirely
(no clear). In particular a degenerate line `A == B` performs exactly one
step at `A`: one placement at `floor(A)` when the material resolved at
`uvA` is solid, and no operation at all when it is transparent. -/
theorem c5_amended (env : ColorEnv) (texture : Image3) (A : ℝ × ℝ × ℝ) (uvA uvB : ℝ × ℝ) :
    buildLineOps env texture A A uvA uvB
        = (if getBlockFromUV env texture uvA = "air"
              ∨ getBlockFromUV env texture uvA = "cave_air" then []
            else [(floorPt A, getBlockFromUV env texture uvA)]) ∧
      ∀ i : ℕ, ((i : ℝ) < max 1 (distanceBetweenPoints A A)
        ↔ i < ⌈max 1 (distanceBetweenPoints A A)⌉₊) := by
  constructor
  · rw [buildLineOps_degenerate, setBlockOps]
  · intro i
    exact buildLine_step_iff _ i

end MCPrinter
